import Mathlib

set_option maxHeartbeats 1000000

/-! Shallow embedding of the session relay server (the main server source
file of claude-agent-server): JavaScript runtime values, the message queue
with its `generateMessages` producer, the `/config` endpoint handlers, the
WebSocket connection registry, and the construction of the options object
passed to the agent query. -/

/-- JavaScript runtime values as manipulated by the server: JSON values plus
function values (the `stderr` callback stored in the options object). -/
inductive JsValue where
  | null
  | bool (b : Bool)
  | num (n : Int)
  | str (s : String)
  | arr (elems : List JsValue)
  | obj (fields : List (String × JsValue))
  | func (name : String)
deriving Repr

/-- JavaScript truthiness of a value, as tested by `if (x)` and `x && y`. -/
def truthy : JsValue → Bool
  | .null => false
  | .bool b => b
  | .num n => n != 0
  | .str s => s != ""
  | .arr _ => true
  | .obj _ => true
  | .func _ => true

/-- Truthiness of a possibly-absent value (`undefined` is falsy). -/
def truthyOpt : Option JsValue → Bool
  | none => false
  | some v => truthy v

/-- Lookup of a key in a field list (first occurrence). -/
def jsLookup : List (String × JsValue) → String → Option JsValue
  | [], _ => none
  | (k', v) :: rest, k => if k' = k then some v else jsLookup rest k

/-- Property access `v.k` for values on which access does not throw:
field lookup on objects, `undefined` (modelled as `none`) on non-null
primitives, matching e.g. `(42).clientId`. Access on `null` throws a
TypeError in JavaScript; that path is modelled by `jsGetE`, and `jsGet` is
only used where the value is known not to be `null`. -/
def jsGet (v : JsValue) (k : String) : Option JsValue :=
  match v with
  | .obj fields => jsLookup fields k
  | _ => none

/-- Property access `v.k` with the JavaScript exception behaviour: on
`null` the access throws a TypeError (the message stands for the runtime
text of the thrown error); on any other value it yields the field or
`undefined` as `jsGet` does. -/
def jsGetE (v : JsValue) (k : String) : Except String (Option JsValue) :=
  match v with
  | .null => .error ("TypeError: null is not an object (reading " ++ k ++ ")")
  | .obj fields => .ok (jsLookup fields k)
  | _ => .ok none

/-- Assignment of one key into a field list, with JavaScript object
semantics: an existing key keeps its position and gets the new value, a
fresh key is appended at the end. -/
def jsSet : List (String × JsValue) → String → JsValue → List (String × JsValue)
  | [], k, v => [(k, v)]
  | (k', v') :: rest, k, v =>
    if k' = k then (k', v) :: rest else (k', v') :: jsSet rest k v

/-- Object spread `{...a, ...b}` for two field lists: every field of `b` is
assigned, in order, into `a`. -/
def spreadObj (a b : List (String × JsValue)) : List (String × JsValue) :=
  b.foldl (fun acc kv => jsSet acc kv.1 kv.2) a

/-- Fields contributed by spreading an arbitrary value into an object
literal (`{...v}`): an object contributes its fields, an array or string
contributes index keys, primitives contribute nothing. -/
def spreadFields : JsValue → List (String × JsValue)
  | .obj fields => fields
  | .arr xs => xs.enum.map (fun p => (toString p.1, p.2))
  | .str s => (s.toList.enum).map (fun p => (toString p.1, .str (String.mk [p.2])))
  | _ => []

/-! ### Inbound Queue and the `generateMessages` producer -/

/-- One pull of the `generateMessages` async generator: when the queue is
non-empty it shifts the head off and yields it; when empty it idles through
the 10 ms `setTimeout` delay and yields nothing this round. -/
def generateMessagesNext (queue : List JsValue) : Option JsValue × List JsValue :=
  match queue with
  | [] => (none, [])
  | m :: rest => (some m, rest)

/-- Events observable at the queue boundary: an `enqueue` (a push from the
message handler) or one producer pull (`poll`). -/
inductive QueueEvent where
  | enqueue (m : JsValue)
  | poll
deriving Repr

/-- State of the producer: the pending queue paired with the list of
messages yielded to the consumer so far. -/
def producerStep : List JsValue × List JsValue → QueueEvent → List JsValue × List JsValue
  | (q, ys), .enqueue m => (q ++ [m], ys)
  | (q, ys), .poll =>
    match generateMessagesNext q with
    | (none, q') => (q', ys)
    | (some m, q') => (q', ys ++ [m])

/-- Run of the producer over a finite event trace. -/
def producerRun (st : List JsValue × List JsValue) : List QueueEvent → List JsValue × List JsValue
  | [] => st
  | e :: es => producerRun (producerStep st e) es

/-- Payloads enqueued along a trace, in order. -/
def enqueuedList : List QueueEvent → List JsValue
  | [] => []
  | .enqueue m :: es => m :: enqueuedList es
  | .poll :: es => enqueuedList es

/-! ### Options construction for the agent query -/

/-- Workspace directory, standing for `join(homedir(), WORKSPACE_DIR_NAME)`. -/
def workspaceDirectory : String := "HOME/workspace"

/-- Path of the Protected Credential File, standing for
`join(homedir(), ".agent-config", "client_id")`. -/
def CLIENT_ID_FILE : String := "HOME/.agent-config/client_id"

/-- Fixed baseline of the options literal, the fields written before the
`...queryConfig` spread: permission mode, skip-permissions flag, setting
sources, workspace path, partial-message streaming, and the stderr
callback. -/
def baselineOptions : List (String × JsValue) :=
  [("permissionMode", .str "bypassPermissions"),
   ("allowDangerouslySkipPermissions", .bool true),
   ("settingSources", .arr [.str "project"]),
   ("cwd", .str workspaceDirectory),
   ("includePartialMessages", .bool true),
   ("stderr", .func "stderr")]

/-- Value of the options literal passed to `query` when its construction
does not throw (the stored configuration is not `null`):
`{ ...baseline, ...queryConfig, ...(queryConfig.anthropicApiKey && { env:
{...process.env, ANTHROPIC_API_KEY: queryConfig.anthropicApiKey} }) }`. -/
def mkOptions (queryConfig : JsValue) (processEnv : List (String × JsValue)) :
    List (String × JsValue) :=
  let afterConfig := spreadObj baselineOptions (spreadFields queryConfig)
  match jsGet queryConfig "anthropicApiKey" with
  | some key =>
    if truthy key then
      spreadObj afterConfig
        [("env", .obj (jsSet processEnv "ANTHROPIC_API_KEY" key))]
    else afterConfig
  | none => afterConfig

/-- Construction of the options literal with the JavaScript exception
behaviour: spreading `null` contributes nothing, but the subsequent
`queryConfig.anthropicApiKey` access throws a TypeError when the stored
configuration is `null`, so the whole literal throws there. -/
def mkOptionsE (queryConfig : JsValue) (processEnv : List (String × JsValue)) :
    Except String (List (String × JsValue)) :=
  let afterConfig := spreadObj baselineOptions (spreadFields queryConfig)
  match jsGetE queryConfig "anthropicApiKey" with
  | .error e => .error e
  | .ok (some key) =>
    .ok (if truthy key then
      spreadObj afterConfig
        [("env", .obj (jsSet processEnv "ANTHROPIC_API_KEY" key))]
    else afterConfig)
  | .ok none => .ok afterConfig

/-! ### Server state and handlers -/

/-- Outbound WebSocket messages (`WSOutputMessage`). -/
inductive WSOut where
  | connected
  | info (data : JsValue)
  | sdkMessage (data : JsValue)
  | error (msg : String)
deriving Repr

/-- Externally observable effects of one handler invocation, in order. -/
inductive Effect where
  | send (conn : Nat) (msg : WSOut)
  | close (conn : Nat)
  | fileWrite (path : String) (content : JsValue)
  | respond (status : Nat) (body : JsValue)
  | startQuery (options : List (String × JsValue))
deriving Repr

/-- Process-wide mutable state of the server: the active-connection slot,
the message queue, whether `activeStream` has been set (the query has been
started), the options snapshot held by the running query, the stored
`queryConfig`, the credential file contents, and the process environment
(read-only). -/
structure ServerState where
  activeConnection : Option Nat
  messageQueue : List JsValue
  activeStream : Bool
  sessionOptions : Option (List (String × JsValue))
  queryConfig : JsValue
  clientIdFile : Option JsValue
  processEnv : List (String × JsValue)
deriving Repr

/-- Initial state of the process: no connection, empty queue, no stream,
empty configuration object. -/
def initialState (env : List (String × JsValue)) : ServerState :=
  { activeConnection := none
    messageQueue := []
    activeStream := false
    sessionOptions := none
    queryConfig := .obj []
    clientIdFile := none
    processEnv := env }

/-- Handler `websocket.open(ws)`: when a connection is already active the
candidate is sent one `error` event and closed; otherwise the candidate
becomes active and, if `activeStream` is unset, `processMessages` runs:
it reads the configuration once and builds the options literal. When that
construction throws (null store), the `catch` sends the error to the now
active connection, `activeStream` stays unset and no query starts; when it
succeeds, `activeStream` is set and the query starts. `connected` is sent
last in either case. -/
def wsOpen (ws : Nat) (s : ServerState) : ServerState × List Effect :=
  match s.activeConnection with
  | some _ =>
    (s, [.send ws (.error "Server already has an active connection"), .close ws])
  | none =>
    let s1 := { s with activeConnection := some ws }
    if s1.activeStream then
      (s1, [.send ws .connected])
    else
      match mkOptionsE s1.queryConfig s1.processEnv with
      | .ok opts =>
        ({ s1 with activeStream := true, sessionOptions := some opts },
         [.startQuery opts, .send ws .connected])
      | .error e =>
        (s1, [.send ws (.error e), .send ws .connected])

/-- Handler `websocket.close(ws)`: the active slot is cleared only when the
closing socket is the active one. -/
def wsClose (ws : Nat) (s : ServerState) : ServerState :=
  if s.activeConnection = some ws then { s with activeConnection := none } else s

/-- One step of the `for await` forwarding loop in `processMessages`: an
SDK message is sent to the active connection if any, otherwise dropped. -/
def sdkEvent (data : JsValue) (s : ServerState) : ServerState × List Effect :=
  match s.activeConnection with
  | some c => (s, [.send c (.sdkMessage data)])
  | none => (s, [])

/-- The `options.stderr` callback: diagnostic text is sent to the active
connection if any, otherwise dropped. -/
def stderrEvent (data : JsValue) (s : ServerState) : ServerState × List Effect :=
  match s.activeConnection with
  | some c => (s, [.send c (.info data)])
  | none => (s, [])

/-- The `catch` of `processMessages`: the interaction failed; one `error`
event goes to the active connection if any. `activeStream` is not reset. -/
def streamFailure (msg : String) (s : ServerState) : ServerState × List Effect :=
  match s.activeConnection with
  | some c => (s, [.send c (.error msg)])
  | none => (s, [])

/-- Handler for `POST /config`: `body = none` models a body whose JSON
parse rejects, answered `400` with the store untouched. A parsed body
replaces `queryConfig` wholesale first; then the `clientId` access runs:
on a `null` body it throws a TypeError, which the `.catch` converts to the
same `400` response — with the store already replaced. Otherwise, if the
`clientId` of the new configuration is truthy, that value is written to
the Protected Credential File before the `200` response is produced. -/
def postConfig (body : Option JsValue) (s : ServerState) : ServerState × List Effect :=
  match body with
  | none => (s, [.respond 400 (.obj [("error", .str "Invalid JSON")])])
  | some config =>
    let s1 := { s with queryConfig := config }
    match jsGetE config "clientId" with
    | .error _ =>
      (s1, [.respond 400 (.obj [("error", .str "Invalid JSON")])])
    | .ok (some cid) =>
      if truthy cid then
        ({ s1 with clientIdFile := some cid },
         [.fileWrite CLIENT_ID_FILE cid,
          .respond 200 (.obj [("success", .bool true), ("config", config)])])
      else
        (s1, [.respond 200 (.obj [("success", .bool true), ("config", config)])])
    | .ok none =>
      (s1, [.respond 200 (.obj [("success", .bool true), ("config", config)])])

/-- Handler for `GET /config`: answers `200` with the current store. -/
def getConfig (s : ServerState) : ServerState × List Effect :=
  (s, [.respond 200 (.obj [("config", s.queryConfig)])])

/-- Inputs driving the server: socket lifecycle events, agent stream
events, and control-endpoint requests. -/
inductive SInput where
  | open_ (ws : Nat)
  | close_ (ws : Nat)
  | sdk (data : JsValue)
  | stderrData (data : JsValue)
  | failure (msg : String)
  | post (body : Option JsValue)
  | get
deriving Repr

/-- Dispatch of one input to its handler. -/
def step (s : ServerState) : SInput → ServerState × List Effect
  | .open_ ws => wsOpen ws s
  | .close_ ws => (wsClose ws s, [])
  | .sdk d => sdkEvent d s
  | .stderrData d => stderrEvent d s
  | .failure m => streamFailure m s
  | .post b => postConfig b s
  | .get => getConfig s

/-- Run of the server over a finite input trace, accumulating effects. -/
def runServer (s : ServerState) : List SInput → ServerState × List Effect
  | [] => (s, [])
  | i :: is =>
    let (s1, es) := step s i
    let (s2, es') := runServer s1 is
    (s2, es ++ es')

/-- Lookup of a key in a field list, last occurrence winning — the value
that key holds after the fields are assigned left to right, as an object
spread does. -/
def jsLookupLast : List (String × JsValue) → String → Option JsValue
  | [], _ => none
  | (k', v) :: rest, k =>
    match jsLookupLast rest k with
    | some w => some w
    | none => if k' = k then some v else none

/-- Test for the query-start effect. -/
def isStart : Effect → Bool
  | .startQuery _ => true
  | _ => false

/-- Number of query starts in an effect list. -/
def countStarts (es : List Effect) : Nat := es.countP (fun e => isStart e)

/-! ### Theorems -/

theorem producerRun_append (st : List JsValue × List JsValue)
    (es es' : List QueueEvent) :
    producerRun st (es ++ es') = producerRun (producerRun st es) es' := by
  induction es generalizing st with
  | nil => rfl
  | cons e es ih => simp [producerRun, ih]

theorem producerRun_invariant (es : List QueueEvent) (q ys : List JsValue) :
    (producerRun (q, ys) es).2 ++ (producerRun (q, ys) es).1
      = ys ++ q ++ enqueuedList es := by
  induction es generalizing q ys with
  | nil => simp [producerRun, enqueuedList]
  | cons e es ih =>
    cases e with
    | enqueue m =>
      simp [producerRun, producerStep, enqueuedList, ih]
    | poll =>
      cases q with
      | nil => simpa [producerRun, producerStep, generateMessagesNext, enqueuedList] using ih [] ys
      | cons m rest =>
        simpa [producerRun, producerStep, generateMessagesNext, enqueuedList] using ih rest (ys ++ [m])

theorem producerRun_drain (q ys : List JsValue) :
    producerRun (q, ys) (List.replicate q.length .poll) = ([], ys ++ q) := by
  induction q generalizing ys with
  | nil => simp [producerRun]
  | cons m rest ih =>
    simpa [List.replicate, producerRun, producerStep, generateMessagesNext] using ih (ys ++ [m])

theorem jsLookup_jsSet_self (a : List (String × JsValue)) (k : String) (v : JsValue) :
    jsLookup (jsSet a k v) k = some v := by
  induction a with
  | nil => simp [jsSet, jsLookup]
  | cons kv rest ih =>
    obtain ⟨k', v'⟩ := kv
    by_cases h : k' = k
    · simp [jsSet, h, jsLookup]
    · simp [jsSet, h, jsLookup, ih]

theorem jsLookup_jsSet_ne (a : List (String × JsValue)) (k k' : String) (v : JsValue)
    (h : k' ≠ k) : jsLookup (jsSet a k v) k' = jsLookup a k' := by
  induction a with
  | nil => simp [jsSet, jsLookup, Ne.symm h]
  | cons kv rest ih =>
    obtain ⟨a1, a2⟩ := kv
    by_cases ha : a1 = k
    · subst ha
      simp [jsSet, jsLookup, Ne.symm h]
    · by_cases hb : a1 = k'
      · simp [jsSet, ha, jsLookup, hb, h]
      · simp [jsSet, ha, jsLookup, hb, ih]

theorem jsLookup_spreadObj (a b : List (String × JsValue)) (k : String) :
    jsLookup (spreadObj a b) k =
      match jsLookupLast b k with
      | some v => some v
      | none => jsLookup a k := by
  induction b generalizing a with
  | nil => simp [spreadObj, jsLookupLast]
  | cons kv rest ih =>
    obtain ⟨k', v⟩ := kv
    have hs : spreadObj a ((k', v) :: rest) = spreadObj (jsSet a k' v) rest := rfl
    rw [hs, ih]
    cases h : jsLookupLast rest k with
    | some w => simp [jsLookupLast, h]
    | none =>
      by_cases hk : k' = k
      · simp [jsLookupLast, h, hk, jsLookup_jsSet_self]
      · simp [jsLookupLast, h, hk, jsLookup_jsSet_ne _ _ _ _ (Ne.symm hk)]

theorem jsLookup_eq_none_of_not_mem (l : List (String × JsValue)) (k : String)
    (h : k ∉ l.map Prod.fst) : jsLookup l k = none := by
  induction l with
  | nil => rfl
  | cons kv rest ih =>
    obtain ⟨k', v⟩ := kv
    simp only [List.map_cons, List.mem_cons, not_or] at h
    simp [jsLookup, Ne.symm h.1, ih h.2]

theorem jsLookupLast_eq_none (l : List (String × JsValue)) (k : String)
    (h : jsLookup l k = none) : jsLookupLast l k = none := by
  induction l with
  | nil => rfl
  | cons kv rest ih =>
    obtain ⟨k', v⟩ := kv
    by_cases hk : k' = k
    · simp [jsLookup, hk] at h
    · simp only [jsLookup, if_neg hk] at h
      simp [jsLookupLast, ih h, hk]

theorem jsLookupLast_eq_jsLookup (l : List (String × JsValue)) (k : String)
    (h : (l.map Prod.fst).Nodup) : jsLookupLast l k = jsLookup l k := by
  induction l with
  | nil => rfl
  | cons kv rest ih =>
    obtain ⟨k', v⟩ := kv
    simp only [List.map_cons, List.nodup_cons] at h
    by_cases hk : k' = k
    · subst hk
      have hr : jsLookup rest k' = none :=
        jsLookup_eq_none_of_not_mem rest k' h.1
      simp [jsLookupLast, jsLookup, ih h.2, hr]
    · simp only [jsLookupLast, ih h.2, jsLookup, if_neg hk]
      cases jsLookup rest k <;> rfl

theorem jsGetE_of_ne_null (c : JsValue) (k : String) (h : c ≠ .null) :
    jsGetE c k = .ok (jsGet c k) := by
  cases c with
  | null => exact absurd rfl h
  | bool b => rfl
  | num n => rfl
  | str s => rfl
  | arr xs => rfl
  | obj fields => rfl
  | func n => rfl

theorem jsGetE_of_jsGet_some (c : JsValue) (k : String) (v : JsValue)
    (h : jsGet c k = some v) : jsGetE c k = .ok (some v) := by
  cases c <;> simp_all [jsGet, jsGetE]

theorem mkOptionsE_of_ne_null (qc : JsValue) (env : List (String × JsValue))
    (h : qc ≠ .null) : mkOptionsE qc env = .ok (mkOptions qc env) := by
  simp only [mkOptionsE, mkOptions, jsGetE_of_ne_null qc _ h]
  cases jsGet qc "anthropicApiKey" <;> rfl

theorem postConfig_queryConfig (s : ServerState) (c : JsValue) :
    ((postConfig (some c) s).1).queryConfig = c := by
  cases h : jsGetE c "clientId" with
  | error e => simp [postConfig, h]
  | ok o =>
    cases o with
    | none => simp [postConfig, h]
    | some cid => by_cases ht : truthy cid <;> simp [postConfig, h, ht]

theorem postConfig_sessionUntouched (s : ServerState) (b : Option JsValue) :
    ((postConfig b s).1).sessionOptions = s.sessionOptions ∧
    ((postConfig b s).1).activeStream = s.activeStream := by
  cases b with
  | none => exact ⟨rfl, rfl⟩
  | some c =>
    cases h : jsGetE c "clientId" with
    | error e => simp [postConfig, h]
    | ok o =>
      cases o with
      | none => simp [postConfig, h]
      | some cid => by_cases ht : truthy cid <;> simp [postConfig, h, ht]

/-- Claim C1: while a Connection `A` is active, an open attempt by a candidate
`B` produces exactly one `error` event to `B` followed by a close of `B`,
leaves the server state unchanged (so `B` never becomes active and `A`
stays active), and a later close of `B` does not clear the active slot. -/
theorem singleConnection_rejects_second (s : ServerState) (A B : Nat)
    (hA : s.activeConnection = some A) (hAB : A ≠ B) :
    wsOpen B s =
      (s, [.send B (.error "Server already has an active connection"),
           .close B]) ∧
    (wsOpen B s).1.activeConnection = some A ∧
    wsClose B (wsOpen B s).1 = (wsOpen B s).1 ∧
    (wsClose B (wsOpen B s).1).activeConnection = some A := by
  have h1 : wsOpen B s =
      (s, [.send B (.error "Server already has an active connection"),
           .close B]) := by
    unfold wsOpen
    rw [hA]
  have h2 : wsClose B s = s := by
    unfold wsClose
    simp [hA, hAB]
  refine ⟨h1, ?_, ?_, ?_⟩
  · rw [h1]; exact hA
  · rw [h1]; exact h2
  · rw [h1]; rw [h2]; exact hA

theorem singleConnection_rejects_second_witness :
    wsOpen 1 { initialState [] with activeConnection := some 0 } =
      ({ initialState [] with activeConnection := some 0 },
       [.send 1 (.error "Server already has an active connection"),
        .close 1]) :=
  (singleConnection_rejects_second _ 0 1 rfl (by decide)).1

/-- Claim C2: payloads appended to the Inbound Queue are yielded by the
`generateMessages` producer in exactly the enqueue order, each exactly
once, regardless of idle polls on an empty queue: after any event trace
the yielded list followed by the still-pending queue is exactly the list
of enqueued payloads in order, and draining the remainder with polls
yields precisely that list and nothing else. -/
theorem generateMessages_fifo (es : List QueueEvent) :
    (producerRun ([], []) es).2 ++ (producerRun ([], []) es).1
      = enqueuedList es ∧
    producerRun ([], [])
        (es ++ List.replicate (producerRun ([], []) es).1.length .poll)
      = ([], enqueuedList es) := by
  have h1 := producerRun_invariant es [] []
  simp only [List.append_nil, List.nil_append] at h1
  refine ⟨h1, ?_⟩
  rw [producerRun_append]
  have h2 := producerRun_drain (producerRun ([], []) es).1 (producerRun ([], []) es).2
  rw [← h1]
  simpa using h2

/-- Claim C3: `setConfiguration` replaces the store wholesale: after any single
`POST /config` with parsed body `c`, `GET /config` returns exactly `c`;
after posting `{x: 1}` and then `{y: 2}`, `GET /config` returns `{y: 2}`
and the field `x` is absent from the result. -/
theorem setConfiguration_wholesale (s : ServerState) (c : JsValue) :
    (getConfig ((postConfig (some c) s).1)).2
      = [.respond 200 (.obj [("config", c)])] ∧
    (getConfig ((postConfig (some (.obj [("y", .num 2)]))
        ((postConfig (some (.obj [("x", .num 1)])) s).1)).1)).2
      = [.respond 200 (.obj [("config", .obj [("y", .num 2)])])] ∧
    jsGet (((postConfig (some (.obj [("y", .num 2)]))
        ((postConfig (some (.obj [("x", .num 1)])) s).1)).1).queryConfig) "x"
      = none := by
  refine ⟨?_, ?_, ?_⟩
  · simp [getConfig, postConfig_queryConfig]
  · simp [getConfig, postConfig_queryConfig]
  · rw [postConfig_queryConfig]
    simp [jsGet, jsLookup]

/-- Claim C4 counterexample: the body `42` is parseable JSON but not a
structured object; the server nevertheless answers `200` (not `400`) and
replaces the store with `42`, so a non-object parseable body is not
rejected and does update the store. -/
theorem postConfig_nonObject_accepted :
    postConfig (some (.num 42)) (initialState [])
      = ({ initialState [] with queryConfig := .num 42 },
         [.respond 200 (.obj [("success", .bool true), ("config", .num 42)])]) ∧
    (initialState []).queryConfig ≠ JsValue.num 42 := by
  refine ⟨rfl, ?_⟩
  intro h
  exact JsValue.noConfusion h

/-- Claim C4 amended: a `POST /config` whose body fails to parse as JSON is
answered `400` and leaves the whole state — in particular the Session
Configuration Store — unchanged. A body that parses is not uniformly
rejected and always replaces the store wholesale, even when the response
is an error: a `null` body is answered `400` (the `clientId` access
throws a TypeError, converted by the same catch handler) with the store
already replaced by `null`, and a parseable non-object body such as `42`
is answered `200`. -/
theorem postConfig_unparseable_rejected (s : ServerState) :
    postConfig none s
      = (s, [.respond 400 (.obj [("error", .str "Invalid JSON")])]) ∧
    postConfig (some .null) s
      = ({ s with queryConfig := .null },
         [.respond 400 (.obj [("error", .str "Invalid JSON")])]) ∧
    postConfig (some (.num 42)) s
      = ({ s with queryConfig := .num 42 },
         [.respond 200 (.obj [("success", .bool true),
            ("config", .num 42)])]) :=
  ⟨rfl, rfl, rfl⟩

/-- Claim C5: when the `clientId` of the posted configuration is a non-empty string,
the handler records exactly that identifier in the Protected Credential
File and the write effect precedes the `200` response effect. -/
theorem clientId_written_before_response (s : ServerState) (c : JsValue)
    (cid : String) (hc : jsGet c "clientId" = some (.str cid))
    (hne : cid ≠ "") :
    postConfig (some c) s
      = ({ s with queryConfig := c, clientIdFile := some (.str cid) },
         [.fileWrite CLIENT_ID_FILE (.str cid),
          .respond 200 (.obj [("success", .bool true), ("config", c)])]) := by
  have hE : jsGetE c "clientId" = .ok (some (.str cid)) :=
    jsGetE_of_jsGet_some c "clientId" (.str cid) hc
  simp [postConfig, hE, truthy, hne]

theorem clientId_written_before_response_witness :
    postConfig (some (.obj [("clientId", .str "abc")])) (initialState [])
      = ({ initialState [] with
            queryConfig := .obj [("clientId", .str "abc")],
            clientIdFile := some (.str "abc") },
         [.fileWrite CLIENT_ID_FILE (.str "abc"),
          .respond 200 (.obj [("success", .bool true),
            ("config", .obj [("clientId", .str "abc")])])]) :=
  clientId_written_before_response (initialState [])
    (.obj [("clientId", .str "abc")]) "abc" rfl (by decide)

/-- Claim C10: a parsed `POST /config` body that supplies no `clientId` —
including the `null` body, whose `clientId` access throws before any write
— or supplies an empty-string `clientId`, still replaces the store
wholesale but leaves the Protected Credential File untouched: the stored
file value is unchanged and no `fileWrite` effect occurs. -/
theorem clientId_absent_no_write (s : ServerState) (c : JsValue)
    (h : c = .null ∨ jsGet c "clientId" = none
      ∨ jsGet c "clientId" = some (.str "")) :
    ((postConfig (some c) s).1).queryConfig = c ∧
    ((postConfig (some c) s).1).clientIdFile = s.clientIdFile ∧
    ∀ p v, Effect.fileWrite p v ∉ (postConfig (some c) s).2 := by
  have key : ((postConfig (some c) s).1).clientIdFile = s.clientIdFile ∧
      ∀ p v, Effect.fileWrite p v ∉ (postConfig (some c) s).2 := by
    rcases h with h | h | h
    · subst h
      refine ⟨rfl, ?_⟩
      intro p v
      simp [postConfig, jsGetE]
    · by_cases hn : c = .null
      · subst hn
        refine ⟨rfl, ?_⟩
        intro p v
        simp [postConfig, jsGetE]
      · have hE : jsGetE c "clientId" = .ok none := by
          rw [jsGetE_of_ne_null c _ hn, h]
        refine ⟨?_, ?_⟩ <;> simp [postConfig, hE]
    · have hE : jsGetE c "clientId" = .ok (some (.str "")) :=
        jsGetE_of_jsGet_some c "clientId" (.str "") h
      refine ⟨?_, ?_⟩ <;> simp [postConfig, hE, truthy]
  exact ⟨postConfig_queryConfig s c, key.1, key.2⟩

theorem clientId_absent_no_write_witness :
    ((postConfig (some (.obj [("y", .num 2)])) (initialState [])).1).queryConfig
        = .obj [("y", .num 2)] ∧
    ((postConfig (some (.obj [("y", .num 2)])) (initialState [])).1).clientIdFile
        = (initialState []).clientIdFile ∧
    ∀ p v, Effect.fileWrite p v
        ∉ (postConfig (some (.obj [("y", .num 2)])) (initialState [])).2 :=
  clientId_absent_no_write (initialState []) (.obj [("y", .num 2)])
    (Or.inr (Or.inl rfl))

/-- Claim C6: an `info` diagnostic or an `sdk_message` emitted while no
Connection is active is dropped with no state change and no buffering:
the server run over any continuation trace is identical to the run
without the event, so a Connection attaching later never receives it. -/
theorem output_dropped_when_no_connection (s : ServerState) (d : JsValue)
    (rest : List SInput) (h : s.activeConnection = none) :
    runServer s (.stderrData d :: rest) = runServer s rest ∧
    runServer s (.sdk d :: rest) = runServer s rest ∧
    stderrEvent d s = (s, []) ∧
    sdkEvent d s = (s, []) := by
  have h1 : stderrEvent d s = (s, []) := by simp [stderrEvent, h]
  have h2 : sdkEvent d s = (s, []) := by simp [sdkEvent, h]
  refine ⟨?_, ?_, h1, h2⟩
  · simp [runServer, step, h1]
  · simp [runServer, step, h2]

theorem output_dropped_when_no_connection_witness :
    runServer (initialState []) [.stderrData (.str "diag"), .open_ 7]
      = runServer (initialState []) [.open_ 7] :=
  (output_dropped_when_no_connection (initialState []) (.str "diag")
    [.open_ 7] rfl).1

/-- Claim C8: the configuration is read exactly once, at query start: when
the open with a non-null store starts the query (with a null store the
options construction throws and no session starts at all), the options
snapshot of the session is computed from the store as it stands at that
moment, and any later `POST /config` changes neither the snapshot nor the
started flag of the running session — it only replaces the store a future
session would read. -/
theorem configuration_read_once (s : ServerState) (ws : Nat)
    (hconn : s.activeConnection = none) (hstream : s.activeStream = false)
    (hnn : s.queryConfig ≠ .null) :
    (wsOpen ws s).1.sessionOptions
      = some (mkOptions s.queryConfig s.processEnv) ∧
    ∀ (s' : ServerState) (b : Option JsValue),
      ((postConfig b s').1).sessionOptions = s'.sessionOptions ∧
      ((postConfig b s').1).activeStream = s'.activeStream := by
  constructor
  · simp [wsOpen, hconn, hstream, mkOptionsE_of_ne_null _ _ hnn]
  · exact fun s' b => postConfig_sessionUntouched s' b

theorem configuration_read_once_witness :
    (wsOpen 3 (initialState [])).1.sessionOptions
      = some (mkOptions (initialState []).queryConfig
          (initialState []).processEnv) :=
  (configuration_read_once (initialState []) 3 rfl rfl
    (fun hq => JsValue.noConfusion hq)).1

/-- Claim C7: the effective options passed to `query` are the fixed baseline
overridden field-by-field by the stored configuration object, with the
credential override (the rebuilt `env` holding `ANTHROPIC_API_KEY`) taking
highest precedence on the `env` field when `anthropicApiKey` is truthy:
baseline < stored configuration < credential override. -/
theorem mkOptions_precedence (fields env : List (String × JsValue))
    (hnd : (fields.map Prod.fst).Nodup) :
    (∀ k v, jsLookup fields k = some v →
      (k = "env" → truthyOpt (jsLookup fields "anthropicApiKey") = false) →
      jsLookup (mkOptions (.obj fields) env) k = some v) ∧
    (∀ k, jsLookup fields k = none →
      (k = "env" → truthyOpt (jsLookup fields "anthropicApiKey") = false) →
      jsLookup (mkOptions (.obj fields) env) k = jsLookup baselineOptions k) ∧
    (∀ key, jsLookup fields "anthropicApiKey" = some key → truthy key = true →
      jsLookup (mkOptions (.obj fields) env) "env"
        = some (.obj (jsSet env "ANTHROPIC_API_KEY" key))) := by
  have hafter : ∀ k, jsLookup (spreadObj baselineOptions fields) k
      = match jsLookup fields k with
        | some v => some v
        | none => jsLookup baselineOptions k := by
    intro k
    rw [jsLookup_spreadObj, jsLookupLast_eq_jsLookup fields k hnd]
  refine ⟨?_, ?_, ?_⟩
  · intro k v hk hguard
    cases hapi : jsLookup fields "anthropicApiKey" with
    | none =>
      simp only [mkOptions, jsGet, spreadFields, hapi]
      rw [hafter, hk]
    | some key =>
      by_cases ht : truthy key = true
      · have hkenv : k ≠ "env" := by
          intro he
          have hg := hguard he
          rw [hapi] at hg
          simp [truthyOpt, ht] at hg
        simp only [mkOptions, jsGet, spreadFields, hapi, if_pos ht]
        rw [jsLookup_spreadObj]
        have hsingle :
            jsLookupLast
              [("env", JsValue.obj (jsSet env "ANTHROPIC_API_KEY" key))] k
              = none := by
          simp [jsLookupLast, Ne.symm hkenv]
        rw [hsingle, hafter, hk]
      · simp only [mkOptions, jsGet, spreadFields, hapi, if_neg ht]
        rw [hafter, hk]
  · intro k hk hguard
    cases hapi : jsLookup fields "anthropicApiKey" with
    | none =>
      simp only [mkOptions, jsGet, spreadFields, hapi]
      rw [hafter, hk]
    | some key =>
      by_cases ht : truthy key = true
      · have hkenv : k ≠ "env" := by
          intro he
          have hg := hguard he
          rw [hapi] at hg
          simp [truthyOpt, ht] at hg
        simp only [mkOptions, jsGet, spreadFields, hapi, if_pos ht]
        rw [jsLookup_spreadObj]
        have hsingle :
            jsLookupLast
              [("env", JsValue.obj (jsSet env "ANTHROPIC_API_KEY" key))] k
              = none := by
          simp [jsLookupLast, Ne.symm hkenv]
        rw [hsingle, hafter, hk]
      · simp only [mkOptions, jsGet, spreadFields, hapi, if_neg ht]
        rw [hafter, hk]
  · intro key hkey ht
    simp only [mkOptions, jsGet, spreadFields, hkey, if_pos ht]
    rw [jsLookup_spreadObj]
    simp [jsLookupLast]

theorem mkOptions_precedence_witness :
    jsLookup (mkOptions (.obj [("maxTurns", .num 5),
        ("anthropicApiKey", .str "sk-test")]) [("PATH", .str "/usr/bin")])
      "maxTurns" = some (.num 5) ∧
    jsLookup (mkOptions (.obj [("maxTurns", .num 5),
        ("anthropicApiKey", .str "sk-test")]) [("PATH", .str "/usr/bin")])
      "env" = some (.obj (jsSet [("PATH", .str "/usr/bin")]
        "ANTHROPIC_API_KEY" (.str "sk-test"))) :=
  ⟨(mkOptions_precedence [("maxTurns", .num 5),
      ("anthropicApiKey", .str "sk-test")] [("PATH", .str "/usr/bin")]
      (by decide)).1 "maxTurns" (.num 5) rfl
      (fun h => absurd h (by decide)),
   (mkOptions_precedence [("maxTurns", .num 5),
      ("anthropicApiKey", .str "sk-test")] [("PATH", .str "/usr/bin")]
      (by decide)).2.2 (.str "sk-test") rfl (by decide)⟩

theorem step_startQuery_facts (s : ServerState) (i : SInput) :
    countStarts (step s i).2 ≤ 1 ∧
    (countStarts (step s i).2 = 0 ∨ (step s i).1.activeStream = true) ∧
    (s.activeStream = true →
      countStarts (step s i).2 = 0 ∧ (step s i).1.activeStream = true) := by
  cases i with
  | open_ ws =>
    cases hc : s.activeConnection with
    | some a =>
      simp [step, wsOpen, hc, countStarts, isStart, List.countP_cons]
    | none =>
      cases hs : s.activeStream with
      | true =>
        simp [step, wsOpen, hc, hs, countStarts, isStart, List.countP_cons]
      | false =>
        cases hmo : mkOptionsE s.queryConfig s.processEnv with
        | ok opts =>
          simp [step, wsOpen, hc, hs, hmo, countStarts, isStart,
            List.countP_cons]
        | error e =>
          simp [step, wsOpen, hc, hs, hmo, countStarts, isStart,
            List.countP_cons]
  | close_ ws =>
    by_cases hw : s.activeConnection = some ws <;>
      simp [step, wsClose, hw, countStarts]
  | sdk d =>
    cases hc : s.activeConnection <;>
      simp [step, sdkEvent, hc, countStarts, isStart, List.countP_cons]
  | stderrData d =>
    cases hc : s.activeConnection <;>
      simp [step, stderrEvent, hc, countStarts, isStart, List.countP_cons]
  | failure m =>
    cases hc : s.activeConnection <;>
      simp [step, streamFailure, hc, countStarts, isStart, List.countP_cons]
  | post b =>
    cases b with
    | none => simp [step, postConfig, countStarts, isStart, List.countP_cons]
    | some c =>
      cases hcid : jsGetE c "clientId" with
      | error e =>
        simp [step, postConfig, hcid, countStarts, isStart, List.countP_cons]
      | ok o =>
        cases o with
        | none =>
          simp [step, postConfig, hcid, countStarts, isStart,
            List.countP_cons]
        | some cid =>
          by_cases ht : truthy cid = true <;>
            simp [step, postConfig, hcid, ht, countStarts, isStart,
              List.countP_cons]
  | get => simp [step, getConfig, countStarts, isStart, List.countP_cons]

theorem runServer_starts (s : ServerState) (is : List SInput) :
    countStarts (runServer s is).2 ≤ 1 ∧
    (s.activeStream = true → countStarts (runServer s is).2 = 0) := by
  induction is generalizing s with
  | nil => simp [runServer, countStarts]
  | cons i rest ih =>
    obtain ⟨hle, hor, himp⟩ := step_startQuery_facts s i
    have hrun : runServer s (i :: rest)
        = ((runServer (step s i).1 rest).1,
           (step s i).2 ++ (runServer (step s i).1 rest).2) := rfl
    rw [hrun]
    have hcnt : countStarts ((step s i).2 ++ (runServer (step s i).1 rest).2)
        = countStarts (step s i).2
          + countStarts (runServer (step s i).1 rest).2 := by
      simp [countStarts, List.countP_append]
    constructor
    · rw [hcnt]
      rcases hor with h0 | hstream
      · rw [h0]
        simpa using (ih (step s i).1).1
      · have hz := (ih (step s i).1).2 hstream
        omega
    · intro hs
      rw [hcnt]
      obtain ⟨h0, h1⟩ := himp hs
      rw [h0, (ih (step s i).1).2 h1]

/-- Claim C9 counterexample: with the store set to `null` (reachable via a
parsed `null` body), the first open does not start the query — it emits
the thrown error then `connected` and leaves `activeStream` unset — and a
later open, after the store is repaired, performs the one start; so the
session is not always started on the open of the first Connection. -/
theorem firstOpen_null_config_counterexample :
    countStarts (runServer (initialState [])
        [.post (some .null), .open_ 0]).2 = 0 ∧
    (runServer (initialState [])
        [.post (some .null), .open_ 0]).1.activeStream = false ∧
    countStarts (runServer (initialState [])
        [.post (some .null), .open_ 0, .close_ 0,
         .post (some (.obj [])), .open_ 1]).2 = 1 :=
  ⟨rfl, rfl, rfl⟩

/-- Claim C9 amended: at most one query is ever started per process — any
run performs at most one `startQuery` and none once `activeStream` is set,
and a stream failure leaves the flag set, so no open relaunches a started
or failed query. The lazy start happens on an open with no active
connection, no started query and a non-null store, which emits the start
and sets the flag; with a null store such an open emits the thrown error
then `connected`, starts nothing and leaves the flag unset, deferring the
single start to a later open. -/
theorem singleAgentSession (s : ServerState) (ws : Nat) (is : List SInput)
    (hconn : s.activeConnection = none) (hstream : s.activeStream = false)
    (hnn : s.queryConfig ≠ .null) :
    countStarts (runServer s is).2 ≤ 1 ∧
    (∀ s' : ServerState, s'.activeStream = true →
      countStarts (runServer s' is).2 = 0) ∧
    (wsOpen ws s).2
      = [.startQuery (mkOptions s.queryConfig s.processEnv),
         .send ws .connected] ∧
    (wsOpen ws s).1.activeStream = true ∧
    (∀ (s' : ServerState) (m : String),
      (streamFailure m s').1.activeStream = s'.activeStream) ∧
    (∀ s' : ServerState, s'.activeConnection = none →
      s'.activeStream = false → s'.queryConfig = .null →
      countStarts (wsOpen ws s').2 = 0 ∧
      (wsOpen ws s').1.activeStream = false) := by
  refine ⟨(runServer_starts s is).1,
    fun s' h => (runServer_starts s' is).2 h, ?_, ?_, ?_, ?_⟩
  · simp [wsOpen, hconn, hstream, mkOptionsE_of_ne_null _ _ hnn]
  · simp [wsOpen, hconn, hstream, mkOptionsE_of_ne_null _ _ hnn]
  · intro s' m
    cases hc : s'.activeConnection <;> simp [streamFailure, hc]
  · intro s' h1 h2 h3
    simp [wsOpen, h1, h2, h3, mkOptionsE, jsGetE, countStarts, isStart,
      List.countP_cons]

theorem singleAgentSession_witness :
    (wsOpen 0 (initialState [])).2
      = [.startQuery (mkOptions (initialState []).queryConfig
          (initialState []).processEnv), .send 0 .connected] :=
  (singleAgentSession (initialState []) 0 [] rfl rfl
    (fun hq => JsValue.noConfusion hq)).2.2.1
